import Mathlib

/-! Verification of icebox: the Python bindings of the process API
(`icebox_py/py_process.cpp`).

A shallow embedding of the binding functions of `py_process.cpp`.  Every binding is a
function of the introspection core it is handed, of its Python argument tuple and of the
world around it (Python error indicator, allocator, Python callables, trace of calls made).

The core library functions `::process::…` are only called here, never defined; their
answers are fields of `core.Core`.  They live in the namespace `icebox.process` (the C++
namespace `::process` of the `icebox` library), since `process.f` written inside
`py.process` would denote the binding itself.
-/

set_option linter.unusedVariables false

/-! ## Python values and the CPython API used by the bindings -/

/-- The Python values the bindings can see or build. -/
inductive PyObject where
  | None
  | Bool (b : Bool)
  | Long (n : Int)
  | Bytes (data : List Nat)
  | Unicode (s : String)
  | Tuple (items : List PyObject)
  | List (items : List PyObject)
  | Dict (items : List (PyObject × PyObject))
  | Function (id : Nat)
  | Instance (attrs : List (String × PyObject))

/-- Python exception types that occur in the bindings. -/
inductive PyExc where
  | RuntimeError
  | TypeError
  | ValueError
  | UnicodeDecodeError
  | MemoryError
  | SystemError
  | AttributeError
  | Exception
  deriving DecidableEq, Repr

/-- A pending Python error: exception type and message. -/
structure PyErr where
  exc : PyExc
  msg : String
  deriving DecidableEq, Repr

/-- What calling a Python callable does: it returns a value or raises. -/
inductive CallResult where
  | value (v : PyObject)
  | raised (e : PyErr)

/-! ## Types of `types.hpp` and `enums.hpp` -/

/-- Modelled from the spec: `types.hpp` is absent; a ProcessHandle is an opaque
identifier referring to one guest process. -/
structure proc_t where
  id : Nat
  deriving DecidableEq, Repr

/-- Modelled from the spec: `types.hpp` is absent; ProcessFlags is the small record of the
two bitness bits, named as `to_flags` and `py::process::flags` access them. -/
structure flags_t where
  is_x86 : Bool := false
  is_x64 : Bool := false
  deriving DecidableEq, Repr

/-- The join mode of `enums.hpp`, as used by `py::process::join`. -/
inductive mode_e where
  | kernel
  | user
  deriving DecidableEq, Repr

/-- The visitor verdict of `enums.hpp`. -/
inductive walk_e where
  | stop
  | next
  deriving DecidableEq, Repr

/-- The subscription id `bpid_t = uint64_t` of `modules.hpp`. -/
abbrev bpid_t := Nat

/-- Modelled from the spec: the trigger classes of a Subscription that the process
bindings can arm (process creation and process termination). -/
inductive Trigger where
  | ProcessCreate
  | ProcessDelete
  deriving DecidableEq, Repr

/-- The closure object that `on_listen` hands to the core: the lambda
`[=](proc_t proc) {…}` with `py_func` captured by value. -/
structure on_proc_fn where
  py_func : PyObject

/-! ## The world around a binding call -/

/-- Observable events: calls into the core, callbacks invoked by the dispatcher and calls
of Python callables (`py_call`: the call was made with no error pending and the function
ran to its own outcome; `py_failed_call`: the call was made with an error pending and
failed on that account). -/
inductive Event where
  | core_current
  | core_name (proc : proc_t)
  | core_is_valid (proc : proc_t)
  | core_pid (proc : proc_t)
  | core_flags (proc : proc_t)
  | core_join (proc : proc_t) (mode : mode_e)
  | core_parent (proc : proc_t)
  | core_list
  | core_wait (name : String) (flags : flags_t)
  | core_listen_create (on_proc : on_proc_fn)
  | core_listen_delete (on_proc : on_proc_fn)
  | invoke (id : bpid_t) (on_proc : on_proc_fn) (proc : proc_t)
  | py_call (func : PyObject) (args : PyObject)
  | py_failed_call (func : PyObject) (args : PyObject)

/-- The world a binding runs in.
* `err`: the Python error indicator (`PyErr_Occurred`);
* `oom`: for each upcoming allocation of the Python runtime, whether it fails
  (an exhausted list means every further allocation succeeds);
* `code`: what each Python function does when called;
* `trace`: the events so far, oldest first. -/
structure World where
  err : Option PyErr
  oom : List Bool
  code : Nat → PyObject → CallResult
  trace : List Event

/-- Appends an event to the trace. -/
def World.log (w : World) (e : Event) : World :=
  { w with trace := w.trace ++ [e] }

/-- CPython `PyErr_SetString`. -/
def PyErr_SetString (exc : PyExc) (msg : String) (w : World) : World :=
  { w with err := some ⟨exc, msg⟩ }

/-- A request for memory to the Python runtime: whether it is granted; a refusal leaves
`MemoryError` pending. -/
def World.reserve (w : World) : Bool × World :=
  match w.oom with
  | [] => (true, w)
  | false :: rest => (true, { w with oom := rest })
  | true :: rest => (false, PyErr_SetString PyExc.MemoryError "out of memory" { w with oom := rest })

/-- An allocation of the Python runtime: yields the new object, or NULL with `MemoryError`
pending when the allocator fails. -/
def World.alloc (w : World) (o : PyObject) : Option PyObject × World :=
  match w.reserve with
  | (true, w1) => (some o, w1)
  | (false, w1) => (none, w1)

/-- The attribute of a Python value under a name: instances carry an attribute
dictionary; the built-in types have no attribute named `is_x64` or `is_x86`, the only names
looked up here, and in particular a `dict` does not expose its items as attributes. -/
def PyObject.attr : PyObject → String → Option PyObject
  | PyObject.Instance attrs, attr_name => attrs.lookup attr_name
  | _, _ => none

/-- CPython `PyObject_GetAttrString`: a failed lookup leaves `AttributeError` pending. -/
def PyObject_GetAttrString (o : PyObject) (attr_name : String) (w : World) :
    Option PyObject × World :=
  match o.attr attr_name with
  | some v => (some v, w)
  | none => (none, PyErr_SetString PyExc.AttributeError attr_name w)

/-- CPython `PyBool_Check`: the object is `True` or `False`. -/
def PyBool_Check : PyObject → Bool
  | PyObject.Bool _ => true
  | _ => false

/-- CPython `PyLong_AsLong` on the integer-like values; `-1` signals a non-integer. -/
def PyLong_AsLong : PyObject → Int
  | PyObject.Bool b => if b then 1 else 0
  | PyObject.Long n => n
  | _ => -1

/-- CPython `PyCallable_Check`. -/
def PyCallable_Check : PyObject → Bool
  | PyObject.Function _ => true
  | _ => false

/-- CPython `PyBytes_FromStringAndSize`. -/
def PyBytes_FromStringAndSize (data : List Nat) (w : World) : Option PyObject × World :=
  w.alloc (PyObject.Bytes data)

/-- Whether a byte is a UTF-8 continuation byte. -/
def utf8_cont (b : Nat) : Bool := 0x80 ≤ b && b < 0xC0

/-- The strict UTF-8 decoder of CPython on a byte string: the characters it encodes, or no
value when it is not valid UTF-8 (a stray or missing continuation byte, an overlong form,
a surrogate, a code point above U+10FFFF). -/
def utf8_decode : List Nat → Option (List Char)
  | [] => some []
  | b0 :: rest =>
    if b0 < 0x80 then
      (utf8_decode rest).map (fun cs => Char.ofNat b0 :: cs)
    else
      match rest with
      | [] => none
      | b1 :: rest1 =>
        if 0xC2 ≤ b0 && b0 < 0xE0 && utf8_cont b1 then
          (utf8_decode rest1).map
            (fun cs => Char.ofNat ((b0 - 0xC0) * 64 + (b1 - 0x80)) :: cs)
        else
          match rest1 with
          | [] => none
          | b2 :: rest2 =>
            if 0xE0 ≤ b0 && b0 < 0xF0 && utf8_cont b1 && utf8_cont b2
                && 0x800 ≤ (b0 - 0xE0) * 4096 + (b1 - 0x80) * 64 + (b2 - 0x80)
                && !(0xD800 ≤ (b0 - 0xE0) * 4096 + (b1 - 0x80) * 64 + (b2 - 0x80)
                      && (b0 - 0xE0) * 4096 + (b1 - 0x80) * 64 + (b2 - 0x80) < 0xE000) then
              (utf8_decode rest2).map
                (fun cs =>
                  Char.ofNat ((b0 - 0xE0) * 4096 + (b1 - 0x80) * 64 + (b2 - 0x80)) :: cs)
            else
              match rest2 with
              | [] => none
              | b3 :: rest3 =>
                if 0xF0 ≤ b0 && b0 < 0xF5 && utf8_cont b1 && utf8_cont b2 && utf8_cont b3
                    && 0x10000 ≤ (b0 - 0xF0) * 262144 + (b1 - 0x80) * 4096
                          + (b2 - 0x80) * 64 + (b3 - 0x80)
                    && (b0 - 0xF0) * 262144 + (b1 - 0x80) * 4096
                          + (b2 - 0x80) * 64 + (b3 - 0x80) < 0x110000 then
                  (utf8_decode rest3).map
                    (fun cs =>
                      Char.ofNat ((b0 - 0xF0) * 262144 + (b1 - 0x80) * 4096
                        + (b2 - 0x80) * 64 + (b3 - 0x80)) :: cs)
                else none

/-- CPython `PyUnicode_FromStringAndSize(data, size)`: the bytes are decoded as UTF-8; bytes
that are not valid UTF-8 yield NULL with `UnicodeDecodeError` pending, and the new string
object is an allocation. -/
def PyUnicode_FromStringAndSize (data : List Nat) (w : World) : Option PyObject × World :=
  match utf8_decode data with
  | none => (none, PyErr_SetString PyExc.UnicodeDecodeError "invalid utf-8" w)
  | some cs => w.alloc (PyObject.Unicode (String.mk cs))

/-- CPython `PyLong_FromUnsignedLongLong`. -/
def PyLong_FromUnsignedLongLong (n : Nat) (w : World) : Option PyObject × World :=
  w.alloc (PyObject.Long (n : Int))

/-- CPython `PyList_New(0)`. -/
def PyList_New (w : World) : Option PyObject × World :=
  w.alloc (PyObject.List [])

/-- CPython `PyList_Append(list, item)` on the items of the list: the error flag (`true` for the
C result `-1`) and the items afterwards.  Growing the list can fail. -/
def PyList_Append (items : List PyObject) (item : PyObject) (w : World) :
    Bool × List PyObject × World :=
  match w.reserve with
  | (true, w1) => (false, items ++ [item], w1)
  | (false, w1) => (true, items, w1)

/-- CPython `Py_BuildValue` with the format of a dictionary of two items, string keys
`k1`, `k2` and object values `v1`, `v2`. -/
def Py_BuildValue_dict (k1 : String) (v1 : PyObject) (k2 : String) (v2 : PyObject)
    (w : World) : Option PyObject × World :=
  w.alloc (PyObject.Dict [(PyObject.Unicode k1, v1), (PyObject.Unicode k2, v2)])

/-- CPython `Py_BuildValue("(O)", o)`: a NULL argument yields NULL, with `SystemError` raised when
no error is pending yet. -/
def Py_BuildValue_tuple (o : Option PyObject) (w : World) : Option PyObject × World :=
  match o with
  | none =>
    match w.err with
    | some _ => (none, w)
    | none => (none, PyErr_SetString PyExc.SystemError "NULL object passed to Py_BuildValue" w)
  | some v => w.alloc (PyObject.Tuple [v])

/-- CPython `PyEval_CallObject(func, args)`.  With no error pending the Python function
runs: it yields its value, or NULL with the error it raised pending.  A call made while an
error is pending fails: the interpreter refuses a result while an exception is set and
yields NULL with `SystemError` pending, whatever the function would have done. -/
def PyEval_CallObject (func : PyObject) (args : PyObject) (w : World) :
    Option PyObject × World :=
  match func with
  | PyObject.Function id =>
    match w.err with
    | some _ =>
      (none, PyErr_SetString PyExc.SystemError "returned a result with an exception set"
        (w.log (Event.py_failed_call func args)))
    | none =>
      match w.code id args with
      | CallResult.value v => (some v, w.log (Event.py_call func args))
      | CallResult.raised e => (none, { w.log (Event.py_call func args) with err := some e })
  | _ => (none, PyErr_SetString PyExc.TypeError "object is not callable" w)

/-- The failure of `PyArg_ParseTuple`: `TypeError` is left pending (the wording of the
message is not modelled). -/
def PyArg_fail {α : Type} (w : World) : Option α × World :=
  (none, PyErr_SetString PyExc.TypeError "bad arguments" w)

/-- CPython `PyArg_ParseTuple(args, "S", &obj)`: one argument, a bytes object. -/
def PyArg_ParseTuple_S (args : PyObject) (w : World) : Option PyObject × World :=
  match args with
  | PyObject.Tuple [PyObject.Bytes data] => (some (PyObject.Bytes data), w)
  | _ => PyArg_fail w

/-- Whether a string has an embedded NUL character. -/
def has_nul (s : String) : Bool :=
  s.data.contains (Char.ofNat 0)

/-- The conversion of the format unit `s` of `PyArg_ParseTuple`: the C string of a Python
string; a string with an embedded NUL is refused with `ValueError`. -/
def PyArg_convert_s (s : String) (w : World) : Option String × World :=
  if has_nul s then
    (none, PyErr_SetString PyExc.ValueError "embedded null character" w)
  else
    (some s, w)

/-- CPython `PyArg_ParseTuple(args, "Ss", &obj, &strmode)`: a bytes object and a string. -/
def PyArg_ParseTuple_Ss (args : PyObject) (w : World) :
    Option (PyObject × String) × World :=
  match args with
  | PyObject.Tuple [PyObject.Bytes data, PyObject.Unicode s] =>
    match PyArg_convert_s s w with
    | (none, w1) => (none, w1)
    | (some strmode, w1) => (some (PyObject.Bytes data, strmode), w1)
  | _ => PyArg_fail w

/-- CPython `PyArg_ParseTuple(args, "sO", &name, &py_flags)`: a string and any object. -/
def PyArg_ParseTuple_sO (args : PyObject) (w : World) :
    Option (String × PyObject) × World :=
  match args with
  | PyObject.Tuple [PyObject.Unicode s, o] =>
    match PyArg_convert_s s w with
    | (none, w1) => (none, w1)
    | (some name, w1) => (some (name, o), w1)
  | _ => PyArg_fail w

/-- CPython `PyArg_ParseTuple(args, "O", &py_func)`: one argument, any object. -/
def PyArg_ParseTuple_O (args : PyObject) (w : World) : Option PyObject × World :=
  match args with
  | PyObject.Tuple [o] => (some o, w)
  | _ => PyArg_fail w

/-! ## The introspection core -/

/-- Modelled from the spec: a Subscription of the Event Subscription Table, with its id,
its trigger and its callback. -/
structure Subscription where
  id : bpid_t
  trigger : Trigger
  callback : on_proc_fn

/-- Modelled from the spec: the introspection context `core::Core`, whose library is
absent.  The answer the core gives to each query is a parameter, held in a field (a
process name is a `std::string`, that is, bytes); `procs` are the handles its process walk
presents, `list_ok` the result of that walk; `subs`, `next_id` and `capacity` are the Event
Subscription Table of the spec. -/
structure core.Core where
  current : Option proc_t
  name : proc_t → Option (List Nat)
  is_valid : proc_t → Bool
  pid : proc_t → Nat
  flags : proc_t → flags_t
  parent : proc_t → Option proc_t
  wait : String → flags_t → Option proc_t
  procs : List proc_t
  list_ok : Bool
  subs : List Subscription
  next_id : bpid_t
  capacity : Nat

open core

/-- The core call `::process::current`. -/
def icebox.process.current (core : Core) (w : World) : Option proc_t × World :=
  (core.current, w.log Event.core_current)

/-- The core call `::process::name`. -/
def icebox.process.name (core : Core) (proc : proc_t) (w : World) :
    Option (List Nat) × World :=
  (core.name proc, w.log (Event.core_name proc))

/-- The core call `::process::is_valid`. -/
def icebox.process.is_valid (core : Core) (proc : proc_t) (w : World) : Bool × World :=
  (core.is_valid proc, w.log (Event.core_is_valid proc))

/-- The core call `::process::pid`. -/
def icebox.process.pid (core : Core) (proc : proc_t) (w : World) : Nat × World :=
  (core.pid proc, w.log (Event.core_pid proc))

/-- The core call `::process::flags`. -/
def icebox.process.flags (core : Core) (proc : proc_t) (w : World) : flags_t × World :=
  (core.flags proc, w.log (Event.core_flags proc))

/-- The core call `::process::join`. -/
def icebox.process.join (core : Core) (proc : proc_t) (mode : mode_e) (w : World) :
    World :=
  w.log (Event.core_join proc mode)

/-- The core call `::process::parent`. -/
def icebox.process.parent (core : Core) (proc : proc_t) (w : World) :
    Option proc_t × World :=
  (core.parent proc, w.log (Event.core_parent proc))

/-- The core call `::process::wait`. -/
def icebox.process.wait (core : Core) (name : String) (flags : flags_t) (w : World) :
    Option proc_t × World :=
  (core.wait name flags, w.log (Event.core_wait name flags))

/-- Modelled from the spec: the walk of `list_processes` (the core's `process::list` is
absent), which "presents each live process handle to visitor, which returns Continue or
Stop": the handles are presented in turn until the visitor stops the walk. -/
def icebox.process.walk {σ : Type} (on_proc : proc_t → σ → walk_e × σ) :
    List proc_t → σ → σ
  | [], s => s
  | proc :: rest, s =>
    match on_proc proc s with
    | (walk_e.stop, s1) => s1
    | (walk_e.next, s1) => icebox.process.walk on_proc rest s1

/-- Modelled from the spec: `list_processes(visitor) -> success | EnumerationFailed` (the
core's `process::list` is absent).  The result is the core's own verdict on the walk
(`EnumerationFailed` is a registry inconsistency); a visitor that stops the walk does not
make the enumeration fail.  The state the visitor captures by reference is threaded
through as `s`. -/
def icebox.process.list {σ : Type} (core : Core)
    (on_proc : proc_t → σ × World → walk_e × (σ × World)) (s : σ) (w : World) :
    Bool × (σ × World) :=
  (core.list_ok, icebox.process.walk on_proc core.procs (s, w.log Event.core_list))

/-- Modelled from the spec: `subscribe(trigger, callback) -> SubscriptionId` of the Event
Subscription Table (the core's listen functions are absent): "registers a callback; never
fails except on resource exhaustion", ids are monotonically increasing and the table keeps
registration order. -/
def core.Core.subscribe (c : Core) (t : Trigger) (cb : on_proc_fn) :
    Option bpid_t × Core :=
  if c.subs.length < c.capacity then
    (some c.next_id,
      { c with subs := c.subs ++ [{ id := c.next_id, trigger := t, callback := cb }],
               next_id := c.next_id + 1 })
  else
    (none, c)

/-- The core call `::process::listen_create`: a subscription to process creation. -/
def icebox.process.listen_create (core : Core) (on_proc : on_proc_fn) (w : World) :
    Option bpid_t × Core × World :=
  let r := core.subscribe Trigger.ProcessCreate on_proc
  (r.1, r.2, w.log (Event.core_listen_create on_proc))

/-- The core call `::process::listen_delete`: a subscription to process termination. -/
def icebox.process.listen_delete (core : Core) (on_proc : on_proc_fn) (w : World) :
    Option bpid_t × Core × World :=
  let r := core.subscribe Trigger.ProcessDelete on_proc
  (r.1, r.2, w.log (Event.core_listen_delete on_proc))

/-! ## Helpers of `bindings.hpp` -/

/-- The byte encodings behind `py::to_bytes` and `py::from_bytes` (`bindings.hpp` is
absent): the byte image of a process handle and of a subscription id, the decoding of a
byte string to a handle, and the error `py::from_bytes` leaves when it refuses. -/
structure Codec where
  proc_bytes : proc_t → List Nat
  bpid_bytes : bpid_t → List Nat
  bytes_proc : List Nat → Option proc_t
  bad_bytes : PyErr

/-- Modelled from the spec: `py::fail_with` is declared in the absent `bindings.hpp`; as
its call sites show, it leaves the given exception pending and hands back its first
argument. -/
def py.fail_with {α : Type} (ret : α) (exc : PyExc) (msg : String) (w : World) : α × World :=
  (ret, PyErr_SetString exc msg w)

/-- Modelled from the spec: `py::to_bytes` for a process handle ("byte-sequence encoding
of opaque ids"): a new bytes object holding the byte image of the handle. -/
def py.to_bytes (codec : Codec) (proc : proc_t) (w : World) : Option PyObject × World :=
  PyBytes_FromStringAndSize (codec.proc_bytes proc) w

/-- Modelled from the spec: `py::to_bytes` for a subscription id. -/
def py.to_bytes_bpid (codec : Codec) (id : bpid_t) (w : World) : Option PyObject × World :=
  PyBytes_FromStringAndSize (codec.bpid_bytes id) w

/-- Modelled from the spec: `py::from_bytes<proc_t>`: the handle a bytes object decodes
to, or no value with an error pending. -/
def py.from_bytes (codec : Codec) (obj : PyObject) (w : World) : Option proc_t × World :=
  match obj with
  | PyObject.Bytes data =>
    match codec.bytes_proc data with
    | some proc => (some proc, w)
    | none => (none, { w with err := some codec.bad_bytes })
  | _ => (none, { w with err := some codec.bad_bytes })

/-! ## `py_process.cpp` -/

/-- The outcome of a binding call: it returns (a NULL pointer is `none`), or the execution
reads a disengaged `opt`, which is undefined behaviour. -/
inductive Outcome where
  | done (ret : Option PyObject) (w : World)
  | undefined (w : World)

/-- The pointer a binding call returned, if it returned. -/
def Outcome.ret : Outcome → Option (Option PyObject)
  | Outcome.done r _ => some r
  | Outcome.undefined _ => none

/-- The world at the end of the call (for undefined behaviour, where it was reached). -/
def Outcome.world : Outcome → World
  | Outcome.done _ w => w
  | Outcome.undefined w => w

/-- A call that returned, from the pair of its result and the world. -/
def Outcome.of (r : Option PyObject × World) : Outcome :=
  Outcome.done r.1 r.2

/-- Whether the execution reached undefined behaviour. -/
def Outcome.is_undefined : Outcome → Bool
  | Outcome.done _ _ => false
  | Outcome.undefined _ => true

/-- The function `to_flags` (lines 5-19). -/
def to_flags (arg : PyObject) (w : World) : Option flags_t × World :=
  match PyObject_GetAttrString arg "is_x64" w with
  | (none, w1) =>
    py.fail_with none PyExc.RuntimeError "missing or invalid is_x64 attribute" w1
  | (some attr, w1) =>
    if !PyBool_Check attr then
      py.fail_with none PyExc.RuntimeError "missing or invalid is_x64 attribute" w1
    else
      let is_x64 := PyLong_AsLong attr != 0
      match PyObject_GetAttrString arg "is_x86" w1 with
      | (none, w2) =>
        py.fail_with none PyExc.RuntimeError "missing or invalid is_x86 attribute" w2
      | (some attr2, w2) =>
        if !PyBool_Check attr2 then
          py.fail_with none PyExc.RuntimeError "missing or invalid is_x86 attribute" w2
        else
          (some { is_x86 := PyLong_AsLong attr2 != 0, is_x64 := is_x64 }, w2)

/-- The binding `py::process::current` (lines 22-29). -/
def py.process.current (codec : Codec) (core : Core) (args : PyObject) (w : World) :
    Option PyObject × World :=
  match icebox.process.current core w with
  | (none, w1) => py.fail_with none PyExc.RuntimeError "unable to read current process" w1
  | (some proc, w1) => py.to_bytes codec proc w1

/-- The binding `py::process::name` (lines 31-47). -/
def py.process.name (codec : Codec) (core : Core) (args : PyObject) (w : World) :
    Option PyObject × World :=
  match PyArg_ParseTuple_S args w with
  | (none, w1) => (none, w1)
  | (some obj, w1) =>
    match py.from_bytes codec obj w1 with
    | (none, w2) => (none, w2)
    | (some proc, w2) =>
      match icebox.process.name core proc w2 with
      | (none, w3) => py.fail_with none PyExc.RuntimeError "unable to read process name" w3
      | (some name, w3) => PyUnicode_FromStringAndSize name w3

/-- The binding `py::process::is_valid` (lines 49-65). -/
def py.process.is_valid (codec : Codec) (core : Core) (args : PyObject) (w : World) :
    Option PyObject × World :=
  match PyArg_ParseTuple_S args w with
  | (none, w1) => (none, w1)
  | (some obj, w1) =>
    match py.from_bytes codec obj w1 with
    | (none, w2) => (none, w2)
    | (some proc, w2) =>
      match icebox.process.is_valid core proc w2 with
      | (false, w3) => (some (PyObject.Bool false), w3)
      | (true, w3) => (some (PyObject.Bool true), w3)

/-- The binding `py::process::pid` (lines 67-80). -/
def py.process.pid (codec : Codec) (core : Core) (args : PyObject) (w : World) :
    Option PyObject × World :=
  match PyArg_ParseTuple_S args w with
  | (none, w1) => (none, w1)
  | (some obj, w1) =>
    match py.from_bytes codec obj w1 with
    | (none, w2) => (none, w2)
    | (some proc, w2) =>
      match icebox.process.pid core proc w2 with
      | (pid, w3) => PyLong_FromUnsignedLongLong pid w3

/-- The binding `py::process::flags` (lines 82-97). -/
def py.process.flags (codec : Codec) (core : Core) (args : PyObject) (w : World) :
    Option PyObject × World :=
  match PyArg_ParseTuple_S args w with
  | (none, w1) => (none, w1)
  | (some obj, w1) =>
    match py.from_bytes codec obj w1 with
    | (none, w2) => (none, w2)
    | (some proc, w2) =>
      match icebox.process.flags core proc w2 with
      | (flags, w3) =>
        Py_BuildValue_dict
          "is_x86" (if flags.is_x86 then PyObject.Bool true else PyObject.Bool false)
          "is_x64" (if flags.is_x64 then PyObject.Bool true else PyObject.Bool false) w3

/-- The binding `py::process::join` (lines 99-114). -/
def py.process.join (codec : Codec) (core : Core) (args : PyObject) (w : World) :
    Option PyObject × World :=
  match PyArg_ParseTuple_Ss args w with
  | (none, w1) => (none, w1)
  | (some (obj, strmode), w1) =>
    match py.from_bytes codec obj w1 with
    | (none, w2) => (none, w2)
    | (some proc, w2) =>
      let mode := if strmode = "kernel" then mode_e.kernel else mode_e.user
      (some PyObject.None, icebox.process.join core proc mode w2)

/-- The binding `py::process::parent` (lines 116-132). -/
def py.process.parent (codec : Codec) (core : Core) (args : PyObject) (w : World) :
    Option PyObject × World :=
  match PyArg_ParseTuple_S args w with
  | (none, w1) => (none, w1)
  | (some obj, w1) =>
    match py.from_bytes codec obj w1 with
    | (none, w2) => (none, w2)
    | (some proc, w2) =>
      match icebox.process.parent core proc w2 with
      | (none, w3) => (some PyObject.None, w3)
      | (some parent, w3) => py.to_bytes codec parent w3

/-- The visitor lambda of `py::process::list` (lines 141-153); the items of the captured
`list` are its state. -/
def py.process.list_on_proc (codec : Codec) (proc : proc_t) (s : List PyObject × World) :
    walk_e × (List PyObject × World) :=
  match py.to_bytes codec proc s.2 with
  | (none, w1) => (walk_e.stop, (s.1, w1))
  | (some item, w1) =>
    match PyList_Append s.1 item w1 with
    | (true, items, w2) => (walk_e.stop, (items, w2))
    | (false, items, w2) => (walk_e.next, (items, w2))

/-- The binding `py::process::list` (lines 134-159). -/
def py.process.list (codec : Codec) (core : Core) (args : PyObject) (w : World) :
    Option PyObject × World :=
  match PyList_New w with
  | (none, w1) => (none, w1)
  | (some _, w1) =>
    match icebox.process.list core (py.process.list_on_proc codec) [] w1 with
    | (false, (_, w2)) => py.fail_with none PyExc.RuntimeError "unable to list processes" w2
    | (true, (items, w2)) => (some (PyObject.List items), w2)

/-- The binding `py::process::wait` (lines 161-176).  `*opt_flags` is evaluated whether or not
`to_flags` produced a value; on a disengaged `opt` that is undefined behaviour. -/
def py.process.wait (codec : Codec) (core : Core) (args : PyObject) (w : World) : Outcome :=
  match PyArg_ParseTuple_sO args w with
  | (none, w1) => Outcome.done none w1
  | (some (name, py_flags), w1) =>
    match to_flags py_flags w1 with
    | (none, w2) => Outcome.undefined w2
    | (some flags, w2) =>
      match icebox.process.wait core name flags w2 with
      | (none, w3) =>
        Outcome.of (py.fail_with none PyExc.RuntimeError "unable to wait for process" w3)
      | (some proc, w3) => Outcome.of (py.to_bytes codec proc w3)

/-- The body of the lambda that `on_listen` registers (lines 191-202): it returns `void`
on every path. -/
def on_proc_fn.call (codec : Codec) (f : on_proc_fn) (proc : proc_t) (w : World) : World :=
  match py.to_bytes codec proc w with
  | (py_proc, w1) =>
    match Py_BuildValue_tuple py_proc w1 with
    | (none, w2) => w2
    | (some args, w2) => (PyEval_CallObject f.py_func args w2).2

/-- The template `on_listen` (lines 180-207); `operand` is the core listen function. -/
def on_listen (codec : Codec) (core : Core) (args : PyObject)
    (operand : Core → on_proc_fn → World → Option bpid_t × Core × World) (w : World) :
    Option PyObject × Core × World :=
  match PyArg_ParseTuple_O args w with
  | (none, w1) => (none, core, w1)
  | (some py_func, w1) =>
    if !PyCallable_Check py_func then
      match py.fail_with none PyExc.TypeError "arg must be callable" w1 with
      | (ret, w2) => (ret, core, w2)
    else
      match operand core { py_func := py_func } w1 with
      | (none, core1, w2) =>
        match py.fail_with none PyExc.RuntimeError "unable to listen" w2 with
        | (ret, w3) => (ret, core1, w3)
      | (some bpid, core1, w2) =>
        match py.to_bytes_bpid codec bpid w2 with
        | (ret, w3) => (ret, core1, w3)

/-- The binding `py::process::listen_create` (lines 210-213). -/
def py.process.listen_create (codec : Codec) (core : Core) (args : PyObject) (w : World) :
    Option PyObject × Core × World :=
  on_listen codec core args icebox.process.listen_create w

/-- The binding `py::process::listen_delete` (lines 215-218). -/
def py.process.listen_delete (codec : Codec) (core : Core) (args : PyObject) (w : World) :
    Option PyObject × Core × World :=
  on_listen codec core args icebox.process.listen_delete w

/-! ## The Breakpoint Dispatcher -/

/-- Modelled from the spec: the Breakpoint Dispatcher over a subscription table (the
dispatcher is absent from the sources): "invokes every subscription whose trigger
matches", "in subscription-registration order"; each invocation is recorded, then the
callback runs and returns to the dispatcher. -/
def icebox.dispatch_subs (codec : Codec) (t : Trigger) (proc : proc_t) :
    List Subscription → World → World
  | [], w => w
  | s :: rest, w =>
    if s.trigger = t then
      icebox.dispatch_subs codec t proc rest
        (s.callback.call codec proc (w.log (Event.invoke s.id s.callback proc)))
    else
      icebox.dispatch_subs codec t proc rest w

/-- Modelled from the spec: the dispatch of one guest event of trigger class `t` for the
process `proc`. -/
def icebox.dispatch (codec : Codec) (core : Core) (t : Trigger) (proc : proc_t) (w : World) :
    World :=
  icebox.dispatch_subs codec t proc core.subs w

/-- The subscriptions whose callback the dispatcher invoked, in trace order: the id and
the Python function its closure captured. -/
def invoked : List Event → List (bpid_t × PyObject)
  | [] => []
  | Event.invoke id on_proc _ :: rest => (id, on_proc.py_func) :: invoked rest
  | _ :: rest => invoked rest

/-- The Python functions that ran to their own outcome, in trace order. -/
def py_called : List Event → List PyObject
  | [] => []
  | Event.py_call func _ :: rest => func :: py_called rest
  | _ :: rest => py_called rest

/-- The number of calls of a core listen function in a trace. -/
def listen_calls : List Event → Nat
  | [] => 0
  | Event.core_listen_create _ :: rest => listen_calls rest + 1
  | Event.core_listen_delete _ :: rest => listen_calls rest + 1
  | _ :: rest => listen_calls rest

/-- The calls of `::process::wait` in a trace, with their arguments. -/
def wait_calls : List Event → List (String × flags_t)
  | [] => []
  | Event.core_wait name flags :: rest => (name, flags) :: wait_calls rest
  | _ :: rest => wait_calls rest

/-- The number of calls of `::process::is_valid` in a trace. -/
def is_valid_calls : List Event → Nat
  | [] => 0
  | Event.core_is_valid _ :: rest => is_valid_calls rest + 1
  | _ :: rest => is_valid_calls rest

/-- Whether a Python value has an attribute of that name which is a Python bool. -/
def has_bool_attr (o : PyObject) (attr_name : String) : Bool :=
  match o.attr attr_name with
  | some (PyObject.Bool _) => true
  | _ => false

/-- Whether every subscription in the table carries an id below the next id to be issued,
as in every table built up from the empty one. -/
def core.Core.well_numbered (c : Core) : Bool :=
  c.subs.all (fun s => decide (s.id < c.next_id))

/-- The states of the core reached from a given one by further listen calls made through
the bindings, whatever their arguments and whether or not they succeed. -/
inductive Registered (c0 : Core) : Core → Prop where
  | refl : Registered c0 c0
  | create (codec : Codec) (c : Core) (args : PyObject) (w : World) :
      Registered c0 c → Registered c0 (py.process.listen_create codec c args w).2.1
  | delete (codec : Codec) (c : Core) (args : PyObject) (w : World) :
      Registered c0 c → Registered c0 (py.process.listen_delete codec c args w).2.1

/-! ## Sample inputs -/

/-- A byte encoding for the samples: one byte per handle or id. -/
def sample_codec : Codec where
  proc_bytes := fun proc => [proc.id]
  bpid_bytes := fun id => [id]
  bytes_proc := fun data =>
    match data with
    | [n] => some { id := n }
    | _ => none
  bad_bytes := { exc := PyExc.TypeError, msg := "invalid argument" }

/-- A world with no error pending, an allocator that never fails and Python functions
that return `None`. -/
def sample_world : World where
  err := none
  oom := []
  code := fun _ _ => CallResult.value PyObject.None
  trace := []

/-- A core whose handles are all stale: process 1 and process 2 are walked, a wait yields
process 7, no process has a parent, every process is named `notepad.exe` (in UTF-8
bytes). -/
def sample_core : Core where
  current := some { id := 4 }
  name := fun _ => some [110, 111, 116, 101, 112, 97, 100, 46, 101, 120, 101]
  is_valid := fun _ => false
  pid := fun proc => 4 * proc.id
  flags := fun _ => { is_x86 := false, is_x64 := true }
  parent := fun _ => none
  wait := fun _ _ => some { id := 7 }
  procs := [{ id := 1 }, { id := 2 }]
  list_ok := true
  subs := []
  next_id := 0
  capacity := 8

/-- A flags object as a Python instance with the two attributes. -/
def flags_object (is_x86 is_x64 : Bool) : PyObject :=
  PyObject.Instance [("is_x86", PyObject.Bool is_x86), ("is_x64", PyObject.Bool is_x64)]

/-- The sample world in which the allocator grants `n` requests and refuses the next. -/
def sample_world_oom (n : Nat) : World :=
  { sample_world with oom := List.replicate n false ++ [true] }

/-- The sample world in which every Python function raises. -/
def sample_world_raising : World :=
  { sample_world with
    code := fun _ _ => CallResult.raised { exc := PyExc.Exception, msg := "callback failed" } }

/-- The sample world in which the Python function 1 raises and every other Python function
returns `None`. -/
def sample_world_first_raises : World :=
  { sample_world with
    code := fun id _ =>
      if id = 1 then CallResult.raised { exc := PyExc.Exception, msg := "callback failed" }
      else CallResult.value PyObject.None }

/-- The sample core after two subscriptions to process creation, of the Python functions
1 and 2 in that order. -/
def sample_core_listening : Core :=
  { sample_core with
    subs := [{ id := 0, trigger := Trigger.ProcessCreate,
               callback := { py_func := PyObject.Function 1 } },
             { id := 1, trigger := Trigger.ProcessCreate,
               callback := { py_func := PyObject.Function 2 } }]
    next_id := 2 }

/-! ## Theorems -/

/-- C8: `to_flags` returns a flags record exactly when the object has an `is_x64`
attribute that is a Python bool and an `is_x86` attribute that is a Python bool; on success
the two fields are those two attribute values (and the world is untouched); on failure it
returns no value and leaves a `RuntimeError` naming the first offending attribute, `is_x64`
being checked before `is_x86`. -/
theorem to_flags_iff_bool_attributes (arg : PyObject) (w : World) :
    ((to_flags arg w).1.isSome = true ↔
      (has_bool_attr arg "is_x64" = true ∧ has_bool_attr arg "is_x86" = true)) ∧
    (∀ f : flags_t, (to_flags arg w).1 = some f →
      arg.attr "is_x64" = some (PyObject.Bool f.is_x64) ∧
      arg.attr "is_x86" = some (PyObject.Bool f.is_x86) ∧ (to_flags arg w).2 = w) ∧
    (has_bool_attr arg "is_x64" = false →
      (to_flags arg w).1 = none ∧
      (to_flags arg w).2.err =
        some ⟨PyExc.RuntimeError, "missing or invalid is_x64 attribute"⟩) ∧
    (has_bool_attr arg "is_x64" = true → has_bool_attr arg "is_x86" = false →
      (to_flags arg w).1 = none ∧
      (to_flags arg w).2.err =
        some ⟨PyExc.RuntimeError, "missing or invalid is_x86 attribute"⟩) := by
  unfold to_flags has_bool_attr PyObject_GetAttrString
  rcases h1 : arg.attr "is_x64" with _ | a
  · simp [py.fail_with, PyErr_SetString]
  · rcases h2 : arg.attr "is_x86" with _ | b
    · cases a <;> simp [py.fail_with, PyErr_SetString, PyBool_Check, h2]
    · cases a <;> cases b <;>
        simp [py.fail_with, PyErr_SetString, PyBool_Check, PyLong_AsLong, h2]
      rename_i x y
      cases x <;> cases y <;> decide

/-- C8, at an object with both attributes and at `None`. -/
theorem to_flags_iff_bool_attributes_witness :
    ((flags_object true false).attr "is_x64" = some (PyObject.Bool false) ∧
      (flags_object true false).attr "is_x86" = some (PyObject.Bool true) ∧
      (to_flags (flags_object true false) sample_world).2 = sample_world) ∧
    ((to_flags PyObject.None sample_world).1 = none ∧
      (to_flags PyObject.None sample_world).2.err =
        some ⟨PyExc.RuntimeError, "missing or invalid is_x64 attribute"⟩) :=
  ⟨(to_flags_iff_bool_attributes (flags_object true false) sample_world).2.1
      { is_x86 := true, is_x64 := false } rfl,
    (to_flags_iff_bool_attributes PyObject.None sample_world).2.2.1 rfl⟩

/-- A successful `to_flags` leaves the world as it found it. -/
theorem to_flags_success (arg : PyObject) (w : World) (f : flags_t)
    (h : (to_flags arg w).1 = some f) : to_flags arg w = (some f, w) := by
  unfold to_flags PyObject_GetAttrString at h ⊢
  rcases h1 : arg.attr "is_x64" with _ | a
  · simp [h1, py.fail_with] at h
  · rcases h2 : arg.attr "is_x86" with _ | b
    · cases a <;> simp [h1, h2, py.fail_with, PyBool_Check] at h
    · cases a <;> cases b <;> simp [h1, h2, py.fail_with, PyBool_Check] at h ⊢
      exact h

/-! ### Traces -/

theorem invoked_append (l1 l2 : List Event) :
    invoked (l1 ++ l2) = invoked l1 ++ invoked l2 := by
  induction l1 with
  | nil => rfl
  | cons e rest ih => cases e <;> simp [invoked, ih]

theorem py_called_append (l1 l2 : List Event) :
    py_called (l1 ++ l2) = py_called l1 ++ py_called l2 := by
  induction l1 with
  | nil => rfl
  | cons e rest ih => cases e <;> simp [py_called, ih]

theorem wait_calls_append (l1 l2 : List Event) :
    wait_calls (l1 ++ l2) = wait_calls l1 ++ wait_calls l2 := by
  induction l1 with
  | nil => rfl
  | cons e rest ih => cases e <;> simp [wait_calls, ih]

theorem listen_calls_append (l1 l2 : List Event) :
    listen_calls (l1 ++ l2) = listen_calls l1 + listen_calls l2 := by
  induction l1 with
  | nil => simp [listen_calls]
  | cons e rest ih =>
    cases e <;> simp [listen_calls, ih]
    all_goals omega

theorem is_valid_calls_append (l1 l2 : List Event) :
    is_valid_calls (l1 ++ l2) = is_valid_calls l1 + is_valid_calls l2 := by
  induction l1 with
  | nil => simp [is_valid_calls]
  | cons e rest ih =>
    cases e <;> simp [is_valid_calls, ih]
    omega

/-- An allocation adds nothing to the trace. -/
theorem alloc_trace (w : World) (o : PyObject) : (w.alloc o).2.trace = w.trace := by
  unfold World.alloc World.reserve
  rcases h : w.oom with _ | ⟨b, rest⟩
  · simp
  · cases b <;> simp [PyErr_SetString]

/-- The format unit `s` hands over a string that has no embedded NUL. -/
theorem convert_s_accepts (s : String) (w : World) (h : has_nul s = false) :
    PyArg_convert_s s w = (some s, w) := by
  simp [PyArg_convert_s, h]

/-- The format unit `s` refuses a string with an embedded NUL. -/
theorem convert_s_refuses (s : String) (w : World) (h : has_nul s = true) :
    PyArg_convert_s s w
      = (none, PyErr_SetString PyExc.ValueError "embedded null character" w) := by
  simp [PyArg_convert_s, h]

/-! ### `py::process::wait` and the flag combination -/

/-- C1 (as stated, refuted): a flags object with both attributes `False`, and one with both
`True`, are accepted by `py::process::wait`: the wait is started with exactly those flags
and the call returns the handle the core yields, with no error pending. -/
theorem wait_starts_with_no_or_both_bits_set :
    (py.process.wait sample_codec sample_core
      (PyObject.Tuple [PyObject.Unicode "notepad", flags_object false false])
      sample_world).ret = some (some (PyObject.Bytes [7])) ∧
    (py.process.wait sample_codec sample_core
      (PyObject.Tuple [PyObject.Unicode "notepad", flags_object false false])
      sample_world).world.err = none ∧
    wait_calls (py.process.wait sample_codec sample_core
      (PyObject.Tuple [PyObject.Unicode "notepad", flags_object false false])
      sample_world).world.trace = [("notepad", { is_x86 := false, is_x64 := false })] ∧
    (py.process.wait sample_codec sample_core
      (PyObject.Tuple [PyObject.Unicode "notepad", flags_object true true])
      sample_world).ret = some (some (PyObject.Bytes [7])) ∧
    wait_calls (py.process.wait sample_codec sample_core
      (PyObject.Tuple [PyObject.Unicode "notepad", flags_object true true])
      sample_world).world.trace = [("notepad", { is_x86 := true, is_x64 := true })] := by
  refine ⟨rfl, rfl, rfl, rfl, rfl⟩

/-- C1 (amended): `py::process::wait` does not examine the combination of the two bits.
For every name that the argument parser accepts (a string without embedded NUL) and every
flags object whose `is_x64` and `is_x86` attributes are booleans, whatever their values, it
calls `process::wait` exactly once, with exactly those two bits; it fails with
`RuntimeError` "unable to wait for process" when the core yields no handle and returns the
encoding of the handle otherwise.  A name with an embedded NUL is refused by the parser
with `ValueError`, and no wait is started. -/
theorem wait_passes_flags_unchecked (codec : Codec) (core : Core) (name : String)
    (py_flags : PyObject) (w : World) (b86 b64 : Bool)
    (h64 : py_flags.attr "is_x64" = some (PyObject.Bool b64))
    (h86 : py_flags.attr "is_x86" = some (PyObject.Bool b86)) :
    (has_nul name = false →
      wait_calls
        (py.process.wait codec core
          (PyObject.Tuple [PyObject.Unicode name, py_flags]) w).world.trace
        = wait_calls w.trace ++ [(name, { is_x86 := b86, is_x64 := b64 })] ∧
      (core.wait name { is_x86 := b86, is_x64 := b64 } = none →
        (py.process.wait codec core (PyObject.Tuple [PyObject.Unicode name, py_flags]) w).ret
          = some none ∧
        (py.process.wait codec core
          (PyObject.Tuple [PyObject.Unicode name, py_flags]) w).world.err
          = some ⟨PyExc.RuntimeError, "unable to wait for process"⟩) ∧
      (∀ proc, core.wait name { is_x86 := b86, is_x64 := b64 } = some proc →
        py.process.wait codec core (PyObject.Tuple [PyObject.Unicode name, py_flags]) w
          = Outcome.of (py.to_bytes codec proc
              (w.log (Event.core_wait name { is_x86 := b86, is_x64 := b64 }))))) ∧
    (has_nul name = true →
      py.process.wait codec core (PyObject.Tuple [PyObject.Unicode name, py_flags]) w
        = Outcome.done none
            (PyErr_SetString PyExc.ValueError "embedded null character" w)) := by
  have hf : to_flags py_flags w = (some { is_x86 := b86, is_x64 := b64 }, w) := by
    unfold to_flags PyObject_GetAttrString
    cases b86 <;> cases b64 <;> simp [h64, h86, PyBool_Check, PyLong_AsLong]
  constructor
  · intro hname
    unfold py.process.wait
    simp only [PyArg_ParseTuple_sO, convert_s_accepts name w hname, hf, icebox.process.wait]
    rcases hw : core.wait name { is_x86 := b86, is_x64 := b64 } with _ | proc
    · simp [Outcome.of, Outcome.world, Outcome.ret, py.fail_with, PyErr_SetString, World.log,
        wait_calls_append, wait_calls]
    · simp [Outcome.of, Outcome.world, Outcome.ret, py.to_bytes, PyBytes_FromStringAndSize,
        alloc_trace, World.log, wait_calls_append, wait_calls]
  · intro hname
    unfold py.process.wait
    simp only [PyArg_ParseTuple_sO, convert_s_refuses name w hname]

/-- C1 (amended), at a flags object with no bit set. -/
theorem wait_passes_flags_unchecked_witness :
    wait_calls
      (py.process.wait sample_codec sample_core
        (PyObject.Tuple [PyObject.Unicode "notepad", flags_object false false])
        sample_world).world.trace
      = wait_calls sample_world.trace ++ [("notepad", { is_x86 := false, is_x64 := false })] :=
  ((wait_passes_flags_unchecked sample_codec sample_core "notepad" (flags_object false false)
    sample_world false false rfl rfl).1 rfl).1

/-! ### Stale handles -/

/-- C2 (as stated, refuted): for a byte string that decodes to a stale handle,
`py::process::pid` returns an integer, `py::process::flags` a dictionary and
`py::process::join` returns `None`, none of them with an error pending. -/
theorem stale_handle_is_answered :
    sample_codec.bytes_proc [1] = some { id := 1 } ∧
    sample_core.is_valid { id := 1 } = false ∧
    py.process.pid sample_codec sample_core (PyObject.Tuple [PyObject.Bytes [1]]) sample_world
      = (some (PyObject.Long 4), sample_world.log (Event.core_pid { id := 1 })) ∧
    (py.process.flags sample_codec sample_core (PyObject.Tuple [PyObject.Bytes [1]])
      sample_world).1
      = some (PyObject.Dict [(PyObject.Unicode "is_x86", PyObject.Bool false),
          (PyObject.Unicode "is_x64", PyObject.Bool true)]) ∧
    (py.process.join sample_codec sample_core
      (PyObject.Tuple [PyObject.Bytes [1], PyObject.Unicode "kernel"]) sample_world).1
      = some PyObject.None ∧
    (py.process.join sample_codec sample_core
      (PyObject.Tuple [PyObject.Bytes [1], PyObject.Unicode "kernel"]) sample_world).2.err
      = none := by
  refine ⟨rfl, rfl, rfl, rfl, rfl, rfl⟩

/-- C2 (amended): `py::process::pid`, `py::process::flags` and `py::process::join` do not
ask whether the handle is stale.  For every byte string that decodes to a process handle,
stale or not, `pid` returns the integer that `process::pid` yields, `flags` the dictionary
of the two bits that `process::flags` yields, and `join`, for every mode string that the
argument parser accepts (a string without embedded NUL), calls `process::join` (in kernel
mode exactly for the mode string "kernel") and returns `None`; none of the three calls
`process::is_valid`.  A mode string with an embedded NUL is refused by the parser with
`ValueError`, and `process::join` is not called. -/
theorem pid_flags_join_ignore_staleness (codec : Codec) (core : Core) (data : List Nat)
    (proc : proc_t) (strmode : String) (w : World)
    (hdec : codec.bytes_proc data = some proc) :
    py.process.pid codec core (PyObject.Tuple [PyObject.Bytes data]) w
      = PyLong_FromUnsignedLongLong (core.pid proc) (w.log (Event.core_pid proc)) ∧
    py.process.flags codec core (PyObject.Tuple [PyObject.Bytes data]) w
      = Py_BuildValue_dict "is_x86" (PyObject.Bool (core.flags proc).is_x86)
          "is_x64" (PyObject.Bool (core.flags proc).is_x64) (w.log (Event.core_flags proc)) ∧
    (has_nul strmode = false →
      py.process.join codec core
          (PyObject.Tuple [PyObject.Bytes data, PyObject.Unicode strmode]) w
        = (some PyObject.None,
            w.log (Event.core_join proc
              (if strmode = "kernel" then mode_e.kernel else mode_e.user)))) ∧
    (has_nul strmode = true →
      py.process.join codec core
          (PyObject.Tuple [PyObject.Bytes data, PyObject.Unicode strmode]) w
        = (none, PyErr_SetString PyExc.ValueError "embedded null character" w)) ∧
    is_valid_calls
        (py.process.pid codec core (PyObject.Tuple [PyObject.Bytes data]) w).2.trace
      = is_valid_calls w.trace ∧
    is_valid_calls
        (py.process.flags codec core (PyObject.Tuple [PyObject.Bytes data]) w).2.trace
      = is_valid_calls w.trace ∧
    is_valid_calls
        (py.process.join codec core
          (PyObject.Tuple [PyObject.Bytes data, PyObject.Unicode strmode]) w).2.trace
      = is_valid_calls w.trace := by
  have hpid : py.process.pid codec core (PyObject.Tuple [PyObject.Bytes data]) w
      = PyLong_FromUnsignedLongLong (core.pid proc) (w.log (Event.core_pid proc)) := by
    simp [py.process.pid, PyArg_ParseTuple_S, py.from_bytes, hdec, icebox.process.pid]
  have hflags : py.process.flags codec core (PyObject.Tuple [PyObject.Bytes data]) w
      = Py_BuildValue_dict "is_x86" (PyObject.Bool (core.flags proc).is_x86)
          "is_x64" (PyObject.Bool (core.flags proc).is_x64)
          (w.log (Event.core_flags proc)) := by
    have hb : ∀ b : Bool,
        (if b = true then PyObject.Bool true else PyObject.Bool false) = PyObject.Bool b := by
      intro b
      cases b <;> rfl
    simp [py.process.flags, PyArg_ParseTuple_S, py.from_bytes, hdec, icebox.process.flags, hb]
  have hjoin : has_nul strmode = false →
      py.process.join codec core
        (PyObject.Tuple [PyObject.Bytes data, PyObject.Unicode strmode]) w
      = (some PyObject.None,
          w.log (Event.core_join proc
            (if strmode = "kernel" then mode_e.kernel else mode_e.user))) := by
    intro hmode
    simp [py.process.join, PyArg_ParseTuple_Ss, convert_s_accepts strmode w hmode,
      py.from_bytes, hdec, icebox.process.join]
  have hrefuse : has_nul strmode = true →
      py.process.join codec core
        (PyObject.Tuple [PyObject.Bytes data, PyObject.Unicode strmode]) w
      = (none, PyErr_SetString PyExc.ValueError "embedded null character" w) := by
    intro hmode
    simp [py.process.join, PyArg_ParseTuple_Ss, convert_s_refuses strmode w hmode]
  refine ⟨hpid, hflags, hjoin, hrefuse, ?_, ?_, ?_⟩
  · rw [hpid]
    simp [PyLong_FromUnsignedLongLong, alloc_trace, World.log, is_valid_calls_append,
      is_valid_calls]
  · rw [hflags]
    simp [Py_BuildValue_dict, alloc_trace, World.log, is_valid_calls_append, is_valid_calls]
  · cases hmode : has_nul strmode with
    | false =>
      rw [hjoin hmode]
      simp [World.log, is_valid_calls_append, is_valid_calls]
    | true =>
      rw [hrefuse hmode]
      simp [PyErr_SetString]

/-- C2 (amended), at a stale handle. -/
theorem pid_flags_join_ignore_staleness_witness :
    sample_core.is_valid { id := 1 } = false ∧
    py.process.pid sample_codec sample_core (PyObject.Tuple [PyObject.Bytes [1]]) sample_world
      = PyLong_FromUnsignedLongLong (sample_core.pid { id := 1 })
          (sample_world.log (Event.core_pid { id := 1 })) ∧
    py.process.join sample_codec sample_core
        (PyObject.Tuple [PyObject.Bytes [1], PyObject.Unicode "kernel"]) sample_world
      = (some PyObject.None,
          sample_world.log (Event.core_join { id := 1 }
            (if "kernel" = "kernel" then mode_e.kernel else mode_e.user))) :=
  ⟨rfl, (pid_flags_join_ignore_staleness sample_codec sample_core [1] { id := 1 } "kernel"
    sample_world rfl).1,
    (pid_flags_join_ignore_staleness sample_codec sample_core [1] { id := 1 } "kernel"
    sample_world rfl).2.2.1 rfl⟩

/-! ### Callbacks and the dispatcher -/

/-- Building the argument tuple adds nothing to the trace. -/
theorem build_tuple_trace (o : Option PyObject) (w : World) :
    (Py_BuildValue_tuple o w).2.trace = w.trace := by
  unfold Py_BuildValue_tuple
  cases o with
  | none => cases h : w.err <;> simp [PyErr_SetString]
  | some v => simp [alloc_trace]

/-- The callback of `on_listen` records no dispatcher invocation of its own. -/
theorem call_invoked (codec : Codec) (f : on_proc_fn) (proc : proc_t) (w : World) :
    invoked (f.call codec proc w).trace = invoked w.trace := by
  have h1 : (py.to_bytes codec proc w).2.trace = w.trace := by
    simp [py.to_bytes, PyBytes_FromStringAndSize, alloc_trace]
  have h2 := build_tuple_trace (py.to_bytes codec proc w).1 (py.to_bytes codec proc w).2
  unfold on_proc_fn.call
  rcases hb : Py_BuildValue_tuple (py.to_bytes codec proc w).1 (py.to_bytes codec proc w).2
    with ⟨args, w2⟩
  rw [hb] at h2
  simp only at h2
  cases args with
  | none => simp [hb, h2, h1]
  | some a =>
    simp only [hb]
    unfold PyEval_CallObject
    cases hf : f.py_func with
    | Function id =>
      cases he : w2.err with
      | some e => simp [PyErr_SetString, World.log, invoked_append, invoked, h2, h1]
      | none =>
        cases hc : w2.code id a <;>
          simp [hc, World.log, invoked_append, invoked, h2, h1]
    | _ => simp [PyErr_SetString, h2, h1]

/-- The dispatcher invokes the callback of every subscription on the trigger, once each
and in table order, whatever the callbacks do. -/
theorem dispatch_subs_invoked (codec : Codec) (t : Trigger) (proc : proc_t)
    (subs : List Subscription) (w : World) :
    invoked (icebox.dispatch_subs codec t proc subs w).trace
      = invoked w.trace ++
        ((subs.filter (fun s => decide (s.trigger = t))).map
          (fun s => (s.id, s.callback.py_func))) := by
  induction subs generalizing w with
  | nil => simp [icebox.dispatch_subs]
  | cons s rest ih =>
    unfold icebox.dispatch_subs
    by_cases h : s.trigger = t
    · simp [h, ih, call_invoked, World.log, invoked_append, invoked]
    · simp [h, ih]

/-- C3 (the code at the failing input): two callbacks are registered for process creation,
on the Python functions 1 and 2; function 1 raises, function 2 would return `None`.  The
closure of function 1 returns with the raised error still pending (it is never cleared),
so the call of function 2 made by the next closure fails with `SystemError` instead of
yielding what function 2 does, whereas function 2 runs normally when function 1 does not
raise. -/
theorem raising_callback_fails_next_callback :
    (({ py_func := PyObject.Function 1 } : on_proc_fn).call sample_codec { id := 5 }
        sample_world_first_raises).err
      = some ⟨PyExc.Exception, "callback failed"⟩ ∧
    (({ py_func := PyObject.Function 2 } : on_proc_fn).call sample_codec { id := 5 }
        (({ py_func := PyObject.Function 1 } : on_proc_fn).call sample_codec { id := 5 }
          sample_world_first_raises)).trace
      = [Event.py_call (PyObject.Function 1) (PyObject.Tuple [PyObject.Bytes [5]]),
         Event.py_failed_call (PyObject.Function 2) (PyObject.Tuple [PyObject.Bytes [5]])] ∧
    py_called (icebox.dispatch sample_codec sample_core_listening Trigger.ProcessCreate
        { id := 5 } sample_world_first_raises).trace = [PyObject.Function 1] ∧
    (icebox.dispatch sample_codec sample_core_listening Trigger.ProcessCreate
        { id := 5 } sample_world_first_raises).err
      = some ⟨PyExc.SystemError, "returned a result with an exception set"⟩ ∧
    py_called (icebox.dispatch sample_codec sample_core_listening Trigger.ProcessCreate
        { id := 5 } sample_world).trace = [PyObject.Function 1, PyObject.Function 2] ∧
    (icebox.dispatch sample_codec sample_core_listening Trigger.ProcessCreate
        { id := 5 } sample_world).err = none := by
  refine ⟨rfl, rfl, rfl, rfl, rfl, rfl⟩

/-! ### Registration order -/

/-- A subscription leaves the table as it is, or appends one entry that carries the next
id and moves the next id on by one. -/
theorem subscribe_step (c : Core) (t : Trigger) (cb : on_proc_fn) :
    ((c.subscribe t cb).2.subs = c.subs ∧ (c.subscribe t cb).2.next_id = c.next_id) ∨
    ((c.subscribe t cb).2.subs
        = c.subs ++ [{ id := c.next_id, trigger := t, callback := cb }] ∧
      (c.subscribe t cb).2.next_id = c.next_id + 1) := by
  unfold core.Core.subscribe
  by_cases hcap : c.subs.length < c.capacity
  · right
    simp [hcap]
  · left
    simp [hcap]

/-- A call of `on_listen` on a core listen function that subscribes to trigger `t` only
ever appends to the subscription table, entries numbered from the next id on. -/
theorem on_listen_extends (codec : Codec) (c : Core) (args : PyObject) (w : World)
    (t : Trigger) (ev : on_proc_fn → Event) :
    ∃ extra, (on_listen codec c args
      (fun core on_proc w1 =>
        ((core.subscribe t on_proc).1, (core.subscribe t on_proc).2, w1.log (ev on_proc)))
      w).2.1.subs = c.subs ++ extra ∧
      c.next_id ≤ (on_listen codec c args
        (fun core on_proc w1 =>
          ((core.subscribe t on_proc).1, (core.subscribe t on_proc).2, w1.log (ev on_proc)))
        w).2.1.next_id ∧
      ∀ s ∈ extra, c.next_id ≤ s.id ∧ s.id < (on_listen codec c args
        (fun core on_proc w1 =>
          ((core.subscribe t on_proc).1, (core.subscribe t on_proc).2, w1.log (ev on_proc)))
        w).2.1.next_id := by
  unfold on_listen
  rcases hp : PyArg_ParseTuple_O args w with ⟨_ | py_func, w1⟩
  · exact ⟨[], by simp⟩
  · by_cases hcall : PyCallable_Check py_func = true
    · simp only [hcall, Bool.not_true, Bool.false_eq_true, if_false]
      unfold core.Core.subscribe
      by_cases hcap : c.subs.length < c.capacity
      · exact ⟨[{ id := c.next_id, trigger := t, callback := { py_func := py_func } }],
          by simp [hcap]⟩
      · exact ⟨[], by simp [hcap, py.fail_with]⟩
    · exact ⟨[], by simp [hcall, py.fail_with]⟩

/-- Further listen calls keep the subscriptions already in the table, in their order, and
number the ones they add from the next id on. -/
theorem Registered.subs_extend {c0 c : Core} (h : Registered c0 c) :
    ∃ extra, c.subs = c0.subs ++ extra ∧ c0.next_id ≤ c.next_id ∧
      ∀ s ∈ extra, c0.next_id ≤ s.id ∧ s.id < c.next_id := by
  induction h with
  | refl => exact ⟨[], by simp⟩
  | create codec c args w _ ih =>
    obtain ⟨e1, h1, hle1, hid1⟩ := ih
    obtain ⟨e2, h2, hle2, hid2⟩ := on_listen_extends codec c args w Trigger.ProcessCreate
      Event.core_listen_create
    refine ⟨e1 ++ e2, ?_, ?_, ?_⟩
    · rw [← List.append_assoc, ← h1]
      exact h2
    · exact le_trans hle1 hle2
    · intro s hs
      rcases List.mem_append.mp hs with hs | hs
      · exact ⟨(hid1 s hs).1, lt_of_lt_of_le (hid1 s hs).2 hle2⟩
      · exact ⟨le_trans hle1 (hid2 s hs).1, (hid2 s hs).2⟩
  | delete codec c args w _ ih =>
    obtain ⟨e1, h1, hle1, hid1⟩ := ih
    obtain ⟨e2, h2, hle2, hid2⟩ := on_listen_extends codec c args w Trigger.ProcessDelete
      Event.core_listen_delete
    refine ⟨e1 ++ e2, ?_, ?_, ?_⟩
    · rw [← List.append_assoc, ← h1]
      exact h2
    · exact le_trans hle1 hle2
    · intro s hs
      rcases List.mem_append.mp hs with hs | hs
      · exact ⟨(hid1 s hs).1, lt_of_lt_of_le (hid1 s hs).2 hle2⟩
      · exact ⟨le_trans hle1 (hid2 s hs).1, (hid2 s hs).2⟩

/-- The numbering of the table is an invariant of the listen calls: it holds of the empty
table, and every later state of a well-numbered table is well-numbered. -/
theorem Registered.well_numbered {c0 c : Core} (h : Registered c0 c)
    (hwf : c0.well_numbered = true) :
    c.well_numbered = true ∧
    ∀ (c1 : Core), c1.subs = [] → c1.well_numbered = true := by
  obtain ⟨extra, hsubs, hle, hid⟩ := h.subs_extend
  constructor
  · unfold core.Core.well_numbered at hwf ⊢
    rw [List.all_eq_true] at hwf ⊢
    intro s hs
    rw [hsubs] at hs
    rcases List.mem_append.mp hs with hs | hs
    · have h1 : s.id < c0.next_id := by simpa using hwf s hs
      simpa using Nat.lt_of_lt_of_le h1 hle
    · simpa using (hid s hs).2
  · intro c1 h1
    simp [core.Core.well_numbered, h1]

/-- A `py::process::listen_create` call that returns an id has appended one subscription
to process creation, carrying the next id and the Python function passed, and has moved
the next id on by one. -/
theorem listen_create_appends (codec : Codec) (c c1 : Core) (py_func ret : PyObject)
    (w w1 : World)
    (h : py.process.listen_create codec c (PyObject.Tuple [py_func]) w = (some ret, c1, w1)) :
    c1.subs = c.subs ++
      [{ id := c.next_id, trigger := Trigger.ProcessCreate,
         callback := { py_func := py_func } }] ∧
    c1.next_id = c.next_id + 1 := by
  unfold py.process.listen_create on_listen at h
  simp only [PyArg_ParseTuple_O] at h
  by_cases hcall : PyCallable_Check py_func = true
  · simp only [hcall, Bool.not_true, Bool.false_eq_true, if_false,
      icebox.process.listen_create, core.Core.subscribe] at h
    by_cases hcap : c.subs.length < c.capacity
    · simp only [hcap, if_true, Prod.mk.injEq] at h
      rw [← h.2.1]
      exact ⟨rfl, rfl⟩
    · simp [hcap, py.fail_with] at h
  · simp [hcall, py.fail_with] at h

/-- C7: when subscription A and then subscription B are registered for process creation by
two `py::process::listen_create` calls (with any further listen calls in between and
afterwards) on a table whose ids lie below its next id, every process-creation event
dispatched afterwards invokes the callback of A exactly once, the callback of B exactly
once, and the callback of A before the callback of B: the invocations of the dispatch are
a list in which the entry of A precedes the entry of B and no other entry carries the id
of A or of B. -/
theorem registration_order_is_invocation_order (codec : Codec) (c0 c1 c2 c3 c4 : Core)
    (fA fB retA retB : PyObject) (wA wA1 wB wB1 : World)
    (hwf : c0.well_numbered = true)
    (hA : py.process.listen_create codec c0 (PyObject.Tuple [fA]) wA = (some retA, c1, wA1))
    (hmid : Registered c1 c2)
    (hB : py.process.listen_create codec c2 (PyObject.Tuple [fB]) wB = (some retB, c3, wB1))
    (hlater : Registered c3 c4)
    (proc : proc_t) (w : World) :
    ∃ before between after,
      invoked (icebox.dispatch codec c4 Trigger.ProcessCreate proc w).trace
        = invoked w.trace ++
          (before ++ [(c0.next_id, fA)] ++ between ++ [(c2.next_id, fB)] ++ after) ∧
      c0.next_id ≠ c2.next_id ∧
      ∀ x ∈ before ++ between ++ after, x.1 ≠ c0.next_id ∧ x.1 ≠ c2.next_id := by
  obtain ⟨h1, hn1⟩ := listen_create_appends codec c0 c1 fA retA wA wA1 hA
  obtain ⟨e1, h2, hle2, hid2⟩ := hmid.subs_extend
  obtain ⟨h3, hn3⟩ := listen_create_appends codec c2 c3 fB retB wB wB1 hB
  obtain ⟨e2, h4, hle4, hid4⟩ := hlater.subs_extend
  have hsubs : c4.subs = c0.subs ++
      [{ id := c0.next_id, trigger := Trigger.ProcessCreate, callback := { py_func := fA } }]
      ++ e1 ++
      [{ id := c2.next_id, trigger := Trigger.ProcessCreate, callback := { py_func := fB } }]
      ++ e2 := by
    rw [h4, h3, h2, h1]
  have hold : ∀ s ∈ c0.subs, s.id < c0.next_id := by
    intro s hs
    have := List.all_eq_true.mp hwf s hs
    simpa using this
  have hAB : c0.next_id < c2.next_id := by
    have h5 := hle2
    rw [hn1] at h5
    exact Nat.lt_of_succ_le h5
  refine ⟨(c0.subs.filter (fun s => decide (s.trigger = Trigger.ProcessCreate))).map
      (fun s => (s.id, s.callback.py_func)),
    (e1.filter (fun s => decide (s.trigger = Trigger.ProcessCreate))).map
      (fun s => (s.id, s.callback.py_func)),
    (e2.filter (fun s => decide (s.trigger = Trigger.ProcessCreate))).map
      (fun s => (s.id, s.callback.py_func)), ?_, ?_, ?_⟩
  · unfold icebox.dispatch
    rw [dispatch_subs_invoked, hsubs]
    simp [List.filter_append, List.map_append]
  · exact Nat.ne_of_lt hAB
  · intro x hx
    simp only [List.mem_append, List.mem_map, List.mem_filter] at hx
    rcases hx with (⟨s, ⟨hs, _⟩, rfl⟩ | ⟨s, ⟨hs, _⟩, rfl⟩) | ⟨s, ⟨hs, _⟩, rfl⟩
    · have hlt : s.id < c0.next_id := hold s hs
      exact ⟨Nat.ne_of_lt hlt, Nat.ne_of_lt (Nat.lt_trans hlt hAB)⟩
    · have hge : c0.next_id < s.id := by
        have h5 := (hid2 s hs).1
        rw [hn1] at h5
        exact Nat.lt_of_succ_le h5
      exact ⟨Nat.ne_of_gt hge, Nat.ne_of_lt (hid2 s hs).2⟩
    · have hge : c2.next_id < s.id := by
        have h5 := (hid4 s hs).1
        rw [hn3] at h5
        exact Nat.lt_of_succ_le h5
      exact ⟨Nat.ne_of_gt (Nat.lt_trans hAB hge), Nat.ne_of_gt hge⟩

/-- C7, at the sample core with the Python functions 1 and 2. -/
theorem registration_order_is_invocation_order_witness :
    ∃ before between after,
      invoked (icebox.dispatch sample_codec
        (py.process.listen_create sample_codec
          (py.process.listen_create sample_codec sample_core
            (PyObject.Tuple [PyObject.Function 1]) sample_world).2.1
          (PyObject.Tuple [PyObject.Function 2]) sample_world).2.1
        Trigger.ProcessCreate { id := 5 } sample_world_raising).trace
        = invoked sample_world_raising.trace ++
          (before ++ [(sample_core.next_id, PyObject.Function 1)] ++ between ++
            [((py.process.listen_create sample_codec sample_core
                (PyObject.Tuple [PyObject.Function 1]) sample_world).2.1.next_id,
              PyObject.Function 2)] ++ after) ∧
      sample_core.next_id ≠ (py.process.listen_create sample_codec sample_core
          (PyObject.Tuple [PyObject.Function 1]) sample_world).2.1.next_id ∧
      ∀ x ∈ before ++ between ++ after,
        x.1 ≠ sample_core.next_id ∧
        x.1 ≠ (py.process.listen_create sample_codec sample_core
          (PyObject.Tuple [PyObject.Function 1]) sample_world).2.1.next_id :=
  registration_order_is_invocation_order sample_codec sample_core
    (py.process.listen_create sample_codec sample_core
      (PyObject.Tuple [PyObject.Function 1]) sample_world).2.1
    (py.process.listen_create sample_codec sample_core
      (PyObject.Tuple [PyObject.Function 1]) sample_world).2.1
    (py.process.listen_create sample_codec
      (py.process.listen_create sample_codec sample_core
        (PyObject.Tuple [PyObject.Function 1]) sample_world).2.1
      (PyObject.Tuple [PyObject.Function 2]) sample_world).2.1
    (py.process.listen_create sample_codec
      (py.process.listen_create sample_codec sample_core
        (PyObject.Tuple [PyObject.Function 1]) sample_world).2.1
      (PyObject.Tuple [PyObject.Function 2]) sample_world).2.1
    (PyObject.Function 1) (PyObject.Function 2) (PyObject.Bytes [0]) (PyObject.Bytes [1])
    sample_world
    (py.process.listen_create sample_codec sample_core
      (PyObject.Tuple [PyObject.Function 1]) sample_world).2.2
    sample_world
    (py.process.listen_create sample_codec
      (py.process.listen_create sample_codec sample_core
        (PyObject.Tuple [PyObject.Function 1]) sample_world).2.1
      (PyObject.Tuple [PyObject.Function 2]) sample_world).2.2
    rfl rfl Registered.refl rfl Registered.refl { id := 5 } sample_world_raising

/-! ### `py::process::list` -/

/-- C4 (the code at the failing input): the core presents the handles 1 and 2 and reports
success.  When the conversion of handle 2 to bytes fails, and also when its append fails,
the visitor stops the walk and `py::process::list` returns the list holding handle 1 only,
as a result and not as an error, with `MemoryError` left pending. -/
theorem list_returns_truncated_list :
    sample_core.procs = [{ id := 1 }, { id := 2 }] ∧ sample_core.list_ok = true ∧
    (py.process.list sample_codec sample_core (PyObject.Tuple []) (sample_world_oom 3)).1
      = some (PyObject.List [PyObject.Bytes [1]]) ∧
    (py.process.list sample_codec sample_core (PyObject.Tuple []) (sample_world_oom 3)).2.err
      = some ⟨PyExc.MemoryError, "out of memory"⟩ ∧
    (py.process.list sample_codec sample_core (PyObject.Tuple []) (sample_world_oom 4)).1
      = some (PyObject.List [PyObject.Bytes [1]]) ∧
    (py.process.list sample_codec sample_core (PyObject.Tuple []) sample_world).1
      = some (PyObject.List [PyObject.Bytes [1], PyObject.Bytes [2]]) := by
  refine ⟨rfl, rfl, rfl, rfl, rfl, rfl⟩

/-! ### Missing results -/

/-- C5 (as stated, refuted): for a process without parent the core yields no value and
`py::process::parent` returns `None`, with no error pending. -/
theorem parent_returns_none_for_missing_parent :
    sample_codec.bytes_proc [1] = some { id := 1 } ∧
    sample_core.parent { id := 1 } = none ∧
    (py.process.parent sample_codec sample_core (PyObject.Tuple [PyObject.Bytes [1]])
      sample_world).1 = some PyObject.None ∧
    (py.process.parent sample_codec sample_core (PyObject.Tuple [PyObject.Bytes [1]])
      sample_world).2.err = none := by
  refine ⟨rfl, rfl, rfl, rfl⟩

/-- C5 (amended): when the core call yields no value, `py::process::current`,
`py::process::name` and `py::process::wait` return NULL with a `RuntimeError` pending,
whereas `py::process::parent` returns `None` and raises nothing.  When the core call
yields a value, each of the four returns the encoding of exactly that value: `py::to_bytes`
of the handle, and for the name `PyUnicode_FromStringAndSize` of its bytes, which is the
Python string they encode in UTF-8 and is NULL with `UnicodeDecodeError` when they are not
valid UTF-8.  (For `wait` the name is one the argument parser accepts, a string without
embedded NUL.) -/
theorem missing_result_is_error_except_parent (codec : Codec) (core : Core)
    (args : PyObject) (data : List Nat) (proc : proc_t) (name : String)
    (py_flags : PyObject) (flags : flags_t) (w : World)
    (hdec : codec.bytes_proc data = some proc)
    (hname : has_nul name = false)
    (hflags : (to_flags py_flags w).1 = some flags) :
    (core.current = none →
      py.process.current codec core args w
        = (none, PyErr_SetString PyExc.RuntimeError "unable to read current process"
            (w.log Event.core_current))) ∧
    (∀ p, core.current = some p →
      py.process.current codec core args w
        = py.to_bytes codec p (w.log Event.core_current)) ∧
    (core.name proc = none →
      py.process.name codec core (PyObject.Tuple [PyObject.Bytes data]) w
        = (none, PyErr_SetString PyExc.RuntimeError "unable to read process name"
            (w.log (Event.core_name proc)))) ∧
    (∀ bytes, core.name proc = some bytes →
      py.process.name codec core (PyObject.Tuple [PyObject.Bytes data]) w
        = PyUnicode_FromStringAndSize bytes (w.log (Event.core_name proc))) ∧
    (∀ bytes w1, utf8_decode bytes = none →
      PyUnicode_FromStringAndSize bytes w1
        = (none, PyErr_SetString PyExc.UnicodeDecodeError "invalid utf-8" w1)) ∧
    (∀ bytes cs w1, utf8_decode bytes = some cs →
      PyUnicode_FromStringAndSize bytes w1 = w1.alloc (PyObject.Unicode (String.mk cs))) ∧
    (core.parent proc = none →
      py.process.parent codec core (PyObject.Tuple [PyObject.Bytes data]) w
        = (some PyObject.None, w.log (Event.core_parent proc))) ∧
    (∀ p, core.parent proc = some p →
      py.process.parent codec core (PyObject.Tuple [PyObject.Bytes data]) w
        = py.to_bytes codec p (w.log (Event.core_parent proc))) ∧
    (core.wait name flags = none →
      py.process.wait codec core (PyObject.Tuple [PyObject.Unicode name, py_flags]) w
        = Outcome.done none
            (PyErr_SetString PyExc.RuntimeError "unable to wait for process"
              (w.log (Event.core_wait name flags)))) ∧
    (∀ p, core.wait name flags = some p →
      py.process.wait codec core (PyObject.Tuple [PyObject.Unicode name, py_flags]) w
        = Outcome.of (py.to_bytes codec p (w.log (Event.core_wait name flags)))) := by
  have hf := to_flags_success py_flags w flags hflags
  have hs := convert_s_accepts name w hname
  refine ⟨?_, ?_, ?_, ?_, ?_, ?_, ?_, ?_, ?_, ?_⟩
  · intro h
    simp [py.process.current, icebox.process.current, h, py.fail_with]
  · intro p h
    simp [py.process.current, icebox.process.current, h]
  · intro h
    simp [py.process.name, PyArg_ParseTuple_S, py.from_bytes, hdec, icebox.process.name, h,
      py.fail_with]
  · intro bytes h
    simp [py.process.name, PyArg_ParseTuple_S, py.from_bytes, hdec, icebox.process.name, h]
  · intro bytes w1 h
    simp [PyUnicode_FromStringAndSize, h]
  · intro bytes cs w1 h
    simp [PyUnicode_FromStringAndSize, h]
  · intro h
    simp [py.process.parent, PyArg_ParseTuple_S, py.from_bytes, hdec, icebox.process.parent, h]
  · intro p h
    simp [py.process.parent, PyArg_ParseTuple_S, py.from_bytes, hdec, icebox.process.parent, h]
  · intro h
    simp [py.process.wait, PyArg_ParseTuple_sO, hs, hf, icebox.process.wait, h, py.fail_with,
      Outcome.of]
  · intro p h
    simp [py.process.wait, PyArg_ParseTuple_sO, hs, hf, icebox.process.wait, h]

/-- C5 (amended), at the sample core: the name of process 1 is returned as the string its
bytes encode, its missing parent as `None`, and a name that is not UTF-8 is refused. -/
theorem missing_result_is_error_except_parent_witness :
    py.process.name sample_codec sample_core (PyObject.Tuple [PyObject.Bytes [1]]) sample_world
      = PyUnicode_FromStringAndSize [110, 111, 116, 101, 112, 97, 100, 46, 101, 120, 101]
          (sample_world.log (Event.core_name { id := 1 })) ∧
    PyUnicode_FromStringAndSize [110, 111, 116, 101, 112, 97, 100, 46, 101, 120, 101]
        sample_world
      = sample_world.alloc (PyObject.Unicode (String.mk
          [Char.ofNat 110, Char.ofNat 111, Char.ofNat 116, Char.ofNat 101, Char.ofNat 112,
           Char.ofNat 97, Char.ofNat 100, Char.ofNat 46, Char.ofNat 101, Char.ofNat 120,
           Char.ofNat 101])) ∧
    PyUnicode_FromStringAndSize [99, 97, 102, 255] sample_world
      = (none, PyErr_SetString PyExc.UnicodeDecodeError "invalid utf-8" sample_world) ∧
    py.process.parent sample_codec sample_core (PyObject.Tuple [PyObject.Bytes [1]])
        sample_world
      = (some PyObject.None, sample_world.log (Event.core_parent { id := 1 })) :=
  ⟨(missing_result_is_error_except_parent sample_codec sample_core (PyObject.Tuple [])
      [1] { id := 1 } "notepad" (flags_object true false) { is_x86 := true, is_x64 := false }
      sample_world rfl rfl rfl).2.2.2.1 _ rfl,
    (missing_result_is_error_except_parent sample_codec sample_core (PyObject.Tuple [])
      [1] { id := 1 } "notepad" (flags_object true false) { is_x86 := true, is_x64 := false }
      sample_world rfl rfl rfl).2.2.2.2.2.1 _ _ sample_world rfl,
    (missing_result_is_error_except_parent sample_codec sample_core (PyObject.Tuple [])
      [1] { id := 1 } "notepad" (flags_object true false) { is_x86 := true, is_x64 := false }
      sample_world rfl rfl rfl).2.2.2.2.1 _ sample_world rfl,
    (missing_result_is_error_except_parent sample_codec sample_core (PyObject.Tuple [])
      [1] { id := 1 } "notepad" (flags_object true false) { is_x86 := true, is_x64 := false }
      sample_world rfl rfl rfl).2.2.2.2.2.2.1 rfl⟩

/-! ### `on_listen` -/

/-- C6 (as stated, refuted): with an argument that is not callable, `py::process::listen_create`
and `py::process::listen_delete` fail with `TypeError` although the core would have
created the subscription, and the core listen function is not invoked. -/
theorem listen_rejects_non_callable :
    (sample_core.subscribe Trigger.ProcessCreate { py_func := PyObject.None }).1 = some 0 ∧
    (py.process.listen_create sample_codec sample_core (PyObject.Tuple [PyObject.None])
      sample_world).1 = none ∧
    (py.process.listen_create sample_codec sample_core (PyObject.Tuple [PyObject.None])
      sample_world).2.2.err = some ⟨PyExc.TypeError, "arg must be callable"⟩ ∧
    listen_calls (py.process.listen_create sample_codec sample_core
      (PyObject.Tuple [PyObject.None]) sample_world).2.2.trace = 0 ∧
    (py.process.listen_delete sample_codec sample_core (PyObject.Tuple [PyObject.None])
      sample_world).1 = none ∧
    listen_calls (py.process.listen_delete sample_codec sample_core
      (PyObject.Tuple [PyObject.None]) sample_world).2.2.trace = 0 := by
  refine ⟨rfl, rfl, rfl, rfl, rfl, rfl⟩

/-- C6 (amended): `py::process::listen_create` and `py::process::listen_delete` are
`on_listen` on their core listen function.  For every callable argument, `on_listen`
invokes the core listen function exactly once; the call returns the encoding of the subscription id when the core returns
an id, and fails with `RuntimeError` "unable to listen" when the core returns none.  For an
argument that is not callable it fails with `TypeError` "arg must be callable" and the core
listen function is not invoked. -/
theorem on_listen_result (codec : Codec) (core : Core) (py_func : PyObject)
    (operand : Core → on_proc_fn → World → Option bpid_t × Core × World) (w : World)
    (hop : operand = icebox.process.listen_create ∨ operand = icebox.process.listen_delete) :
    (∀ args, py.process.listen_create codec core args w
        = on_listen codec core args icebox.process.listen_create w ∧
      py.process.listen_delete codec core args w
        = on_listen codec core args icebox.process.listen_delete w) ∧
    (PyCallable_Check py_func = false →
      on_listen codec core (PyObject.Tuple [py_func]) operand w
        = (none, core, PyErr_SetString PyExc.TypeError "arg must be callable" w)) ∧
    (PyCallable_Check py_func = true →
      listen_calls (on_listen codec core (PyObject.Tuple [py_func]) operand w).2.2.trace
        = listen_calls w.trace + 1 ∧
      (∀ bpid, (operand core { py_func := py_func } w).1 = some bpid →
        (on_listen codec core (PyObject.Tuple [py_func]) operand w).1
          = (py.to_bytes_bpid codec bpid (operand core { py_func := py_func } w).2.2).1) ∧
      ((operand core { py_func := py_func } w).1 = none →
        (on_listen codec core (PyObject.Tuple [py_func]) operand w).1 = none ∧
        (on_listen codec core (PyObject.Tuple [py_func]) operand w).2.2.err
          = some ⟨PyExc.RuntimeError, "unable to listen"⟩)) := by
  refine ⟨fun _ => ⟨rfl, rfl⟩, ?_, ?_⟩
  · intro h
    simp [on_listen, PyArg_ParseTuple_O, h, py.fail_with]
  · intro h
    have htrace : listen_calls (operand core { py_func := py_func } w).2.2.trace
        = listen_calls w.trace + 1 := by
      rcases hop with hop | hop <;>
        simp [hop, icebox.process.listen_create, icebox.process.listen_delete, World.log,
          listen_calls_append, listen_calls]
    unfold on_listen
    simp only [PyArg_ParseTuple_O, h, Bool.not_true, Bool.false_eq_true, if_false]
    rcases hr : operand core { py_func := py_func } w with ⟨_ | bpid, core1, w2⟩
    · rw [hr] at htrace
      simp only at htrace
      simp [py.fail_with, PyErr_SetString, htrace]
    · rw [hr] at htrace
      simp only at htrace
      simp [py.to_bytes_bpid, PyBytes_FromStringAndSize, alloc_trace, htrace]

/-- C6 (amended), at a Python function and at `None`. -/
theorem on_listen_result_witness :
    on_listen sample_codec sample_core (PyObject.Tuple [PyObject.None])
        icebox.process.listen_create sample_world
      = (none, sample_core,
          PyErr_SetString PyExc.TypeError "arg must be callable" sample_world) ∧
    listen_calls (on_listen sample_codec sample_core (PyObject.Tuple [PyObject.Function 1])
        icebox.process.listen_create sample_world).2.2.trace
      = listen_calls sample_world.trace + 1 :=
  ⟨(on_listen_result sample_codec sample_core PyObject.None icebox.process.listen_create
      sample_world (Or.inl rfl)).2.1 rfl,
    ((on_listen_result sample_codec sample_core (PyObject.Function 1)
      icebox.process.listen_create sample_world (Or.inl rfl)).2.2 rfl).1⟩

/-! ### The disengaged `opt` in `py::process::wait` -/

/-- C9 (the code at the failing input): with `None` as flags object `to_flags` yields no
value, and `py::process::wait` goes on to read the disengaged `opt` instead of returning
a failure. -/
theorem wait_reads_disengaged_flags :
    (to_flags PyObject.None sample_world).1 = none ∧
    (py.process.wait sample_codec sample_core
      (PyObject.Tuple [PyObject.Unicode "notepad", PyObject.None])
      sample_world).is_undefined = true ∧
    (py.process.wait sample_codec sample_core
      (PyObject.Tuple [PyObject.Unicode "notepad", PyObject.None]) sample_world).ret = none := by
  refine ⟨rfl, rfl, rfl⟩

/-! ### Flags across the binding -/

/-- C10 (as stated, refuted): the dictionary that `py::process::flags` returns for the
sample process is refused by `to_flags`. -/
theorem flags_dictionary_is_refused :
    (py.process.flags sample_codec sample_core (PyObject.Tuple [PyObject.Bytes [1]])
      sample_world).1
      = some (PyObject.Dict [(PyObject.Unicode "is_x86", PyObject.Bool false),
          (PyObject.Unicode "is_x64", PyObject.Bool true)]) ∧
    (to_flags (PyObject.Dict [(PyObject.Unicode "is_x86", PyObject.Bool false),
        (PyObject.Unicode "is_x64", PyObject.Bool true)]) sample_world).1 = none ∧
    (to_flags (PyObject.Dict [(PyObject.Unicode "is_x86", PyObject.Bool false),
        (PyObject.Unicode "is_x64", PyObject.Bool true)]) sample_world).2.err
      = some ⟨PyExc.RuntimeError, "missing or invalid is_x64 attribute"⟩ := by
  refine ⟨rfl, rfl, rfl⟩

/-- C10 (amended): the value `py::process::flags` builds for a flags record `f` is the
dictionary with the items `is_x86` and `is_x64`; `to_flags` reads attributes, not
dictionary items, and refuses it with "missing or invalid is_x64 attribute".  An object
that carries the two values of the dictionary as its attributes `is_x86` and `is_x64` is
accepted by `to_flags` and decodes back to `f`, so that object can be passed as the flags
argument of `py::process::wait`: with it (and a name the argument parser accepts)
`process::wait` is called once, with exactly `f`. -/
theorem flags_round_trip_through_attributes (codec : Codec) (core : Core) (data : List Nat)
    (proc : proc_t) (v : PyObject) (w w2 : World)
    (hdec : codec.bytes_proc data = some proc)
    (hv : (py.process.flags codec core (PyObject.Tuple [PyObject.Bytes data]) w).1 = some v) :
    v = PyObject.Dict [(PyObject.Unicode "is_x86", PyObject.Bool (core.flags proc).is_x86),
          (PyObject.Unicode "is_x64", PyObject.Bool (core.flags proc).is_x64)] ∧
    (to_flags v w2).1 = none ∧
    (to_flags v w2).2.err = some ⟨PyExc.RuntimeError, "missing or invalid is_x64 attribute"⟩ ∧
    to_flags (flags_object (core.flags proc).is_x86 (core.flags proc).is_x64) w2
      = (some (core.flags proc), w2) ∧
    (∀ (name : String) (core2 : Core), has_nul name = false →
      (py.process.wait codec core2
        (PyObject.Tuple [PyObject.Unicode name,
          flags_object (core.flags proc).is_x86 (core.flags proc).is_x64]) w2).is_undefined
        = false ∧
      wait_calls (py.process.wait codec core2
        (PyObject.Tuple [PyObject.Unicode name,
          flags_object (core.flags proc).is_x86 (core.flags proc).is_x64]) w2).world.trace
        = wait_calls w2.trace ++ [(name, core.flags proc)]) := by
  have hb : ∀ b : Bool,
      (if b = true then PyObject.Bool true else PyObject.Bool false) = PyObject.Bool b := by
    intro b
    cases b <;> rfl
  have hv2 : v = PyObject.Dict
      [(PyObject.Unicode "is_x86", PyObject.Bool (core.flags proc).is_x86),
        (PyObject.Unicode "is_x64", PyObject.Bool (core.flags proc).is_x64)] := by
    simp only [py.process.flags, PyArg_ParseTuple_S, py.from_bytes, hdec, icebox.process.flags,
      hb, Py_BuildValue_dict, World.alloc] at hv
    rcases hr : (w.log (Event.core_flags proc)).reserve with ⟨ok, w1⟩
    rw [hr] at hv
    cases ok <;> simp at hv
    exact hv.symm
  have hobj : to_flags (flags_object (core.flags proc).is_x86 (core.flags proc).is_x64) w2
      = (some (core.flags proc), w2) := by
    rcases hfl : core.flags proc with ⟨b86, b64⟩
    cases b86 <;> cases b64 <;> rfl
  refine ⟨hv2, ?_, ?_, hobj, ?_⟩
  · rw [hv2]
    rfl
  · rw [hv2]
    rfl
  · intro name core2 hname
    unfold py.process.wait
    simp only [PyArg_ParseTuple_sO, convert_s_accepts name w2 hname, hobj, icebox.process.wait]
    rcases hw : core2.wait name (core.flags proc) with _ | p
    · simp [Outcome.of, Outcome.world, Outcome.is_undefined, py.fail_with, PyErr_SetString,
        World.log, wait_calls_append, wait_calls]
    · simp [Outcome.of, Outcome.world, Outcome.is_undefined, py.to_bytes,
        PyBytes_FromStringAndSize, alloc_trace, World.log, wait_calls_append, wait_calls]

/-- C10 (amended), at the sample process. -/
theorem flags_round_trip_through_attributes_witness :
    (to_flags (PyObject.Dict [(PyObject.Unicode "is_x86", PyObject.Bool false),
        (PyObject.Unicode "is_x64", PyObject.Bool true)]) sample_world).1 = none ∧
    to_flags (flags_object false true) sample_world
      = (some { is_x86 := false, is_x64 := true }, sample_world) ∧
    wait_calls (py.process.wait sample_codec sample_core
        (PyObject.Tuple [PyObject.Unicode "notepad", flags_object false true])
        sample_world).world.trace
      = wait_calls sample_world.trace ++ [("notepad", { is_x86 := false, is_x64 := true })] :=
  ⟨(flags_round_trip_through_attributes sample_codec sample_core [1] { id := 1 }
      (PyObject.Dict [(PyObject.Unicode "is_x86", PyObject.Bool false),
        (PyObject.Unicode "is_x64", PyObject.Bool true)])
      sample_world sample_world rfl rfl).2.1,
    (flags_round_trip_through_attributes sample_codec sample_core [1] { id := 1 }
      (PyObject.Dict [(PyObject.Unicode "is_x86", PyObject.Bool false),
        (PyObject.Unicode "is_x64", PyObject.Bool true)])
      sample_world sample_world rfl rfl).2.2.2.1,
    ((flags_round_trip_through_attributes sample_codec sample_core [1] { id := 1 }
      (PyObject.Dict [(PyObject.Unicode "is_x86", PyObject.Bool false),
        (PyObject.Unicode "is_x64", PyObject.Bool true)])
      sample_world sample_world rfl rfl).2.2.2.2 "notepad" sample_core rfl).2⟩
